import Mathlib

/-!
# Verification of the simple-task-manager authentication and pipeline core

A shallow embedding of the request-authentication and transaction-lifecycle
pipeline of the simple-task-manager server:

* the token codec (`createTokenString` / `verifyToken`, whose file is absent
  from the sources at hand and is therefore modelled from the spec),
* `VerifyRequest` from `server/auth/auth.go`,
* the OAuth handshake (`OauthLogin` / `OauthCallback`) from
  `server/auth/auth.go`, with the process-wide `configs` / `loggers` maps
  modelled as association lists whose values are `Option`s, so that a Go map
  entry set to `nil` (present but blank) is distinguished from a deleted one,
* the request pipeline `prepareAndHandle` and the websocket adapter
  `authenticatedWebsocket` from the `api` package.

External effects (randomness, the OAuth provider, the database transaction,
HTTP writes) are made explicit: fallible externals become `Except` / `Option`
parameters, and each entry point returns a trace recording the response
writes and the transaction operations it performed.
-/

namespace STM

/-! ## Go maps as association lists

`m[k] = v` keeps the key present; `lookupList` returns `none` when the key is
absent, mirroring the `v, ok := m[k]` idiom (presence = `isSome`). -/

def lookupList {α : Type} : List (String × α) → String → Option α
  | [], _ => none
  | (k', v) :: rest, k => if k' = k then some v else lookupList rest k

def insertList {α : Type} : List (String × α) → String → α → List (String × α)
  | [], k, v => [(k, v)]
  | (k', v') :: rest, k, v =>
      if k' = k then (k, v) :: rest else (k', v') :: insertList rest k v

theorem lookupList_insertList_self {α : Type} (m : List (String × α)) (k : String) (v : α) :
    lookupList (insertList m k v) k = some v := by
  induction m with
  | nil => simp [insertList, lookupList]
  | cons hd tl ih =>
      by_cases h : hd.1 = k
      · simp [insertList, h, lookupList]
      · simp [insertList, h, lookupList, ih]

theorem lookupList_insertList_ne {α : Type} (m : List (String × α)) (k k' : String) (v : α)
    (h : k' ≠ k) : lookupList (insertList m k' v) k = lookupList m k := by
  induction m with
  | nil => simp [insertList, lookupList, h]
  | cons hd tl ih =>
      by_cases hh : hd.1 = k'
      · simp [insertList, hh, lookupList, h]
      · simp [insertList, hh, lookupList, ih]

/-! ## Session token codec

`Token` mirrors `auth.Token` (fields `User`, `UID`, `ValidUntil`, `Secret`). -/

structure Token where
  user : String
  uid : String
  validUntil : Int
  secret : String
deriving Repr, DecidableEq

/-- The wire form of a signed token: identity and expiry plus a signature
computed over that content.  The string serialization itself is opaque, so the
encoded token is kept structural. -/
structure EncodedToken where
  user : String
  uid : String
  validUntil : Int
  signature : String
deriving Repr, DecidableEq

inductive AuthError where
  /-- recomputed signature does not match the one in the token -/
  | invalidSignature
  /-- `validUntil` lies in the past -/
  | expired
  /-- the `Authorization` header is missing or does not decode as a token -/
  | malformed
deriving Repr, DecidableEq

/-- Modelled from the spec: the signature of the token codec (`token.go`,
absent from the sources), "a signature computed over that content using a
server-held secret key".  Any function of the key and the signed content
works for the properties proved here; a concrete injective-looking encoding
keeps it executable. -/
def computeSignature (key user uid : String) (validUntil : Int) : String :=
  key ++ "|" ++ user ++ "|" ++ uid ++ "|" ++ toString validUntil

/-- Modelled from the spec: `createTokenString` of the token codec
(`token.go`, absent from the sources): "`Issue(user, uid, validUntil) ->
signed-token-string`: encodes identity and expiry plus a signature computed
over that content using a server-held secret key". -/
def createTokenString (key user uid : String) (validUntil : Int) : EncodedToken :=
  { user := user, uid := uid, validUntil := validUntil,
    signature := computeSignature key user uid validUntil }

/-- Modelled from the spec: `verifyToken` of the token codec (`token.go`,
absent from the sources): "recomputes and compares the signature …, checks
`now <= validUntil`".  The decoded `secret` field still carries the signature
material here; the caller `VerifyRequest` (which is in the sources) clears
it. -/
def verifyToken (key : String) (enc : EncodedToken) (now : Int) : Except AuthError Token :=
  if enc.signature = computeSignature key enc.user enc.uid enc.validUntil then
    if now ≤ enc.validUntil then
      .ok { user := enc.user, uid := enc.uid, validUntil := enc.validUntil,
            secret := enc.signature }
    else
      .error .expired
  else
    .error .invalidSignature

/-- `auth.VerifyRequest` (src/server/auth/auth.go:246-258) applied to the
already-extracted `Authorization` header value: verify the token, then clear
the secret (`token.Secret = ""`). -/
def VerifyRequest (key : String) (enc : EncodedToken) (now : Int) : Except AuthError Token :=
  match verifyToken key enc now with
  | .error err => .error err
  | .ok token => .ok { token with secret := "" }

/-- `auth.VerifyRequest` including the header extraction
`r.Header.Get("Authorization")`: a missing header, or one that does not
decode as a token, fails verification (`AuthError.malformed`; the decode
step is modelled from the spec since `token.go` is absent from the
sources). -/
def verifyRequestHeader (key : String) (header : Option EncodedToken) (now : Int) :
    Except AuthError Token :=
  match header with
  | none => .error .malformed
  | some enc => VerifyRequest key enc now

/-! ## Request pipeline (`api` package)

`ApiResponse` mirrors the Go struct (`statusCode int`, `data interface{}`);
`data` is either absent (`EmptyResponse`), a JSON payload (`JsonResponse`) or
an error value (`BadRequestError` / `InternalServerError`). -/

inductive ResponseData where
  | null
  | json (payload : String)
  | errData (msg : String)
deriving Repr, DecidableEq

structure ApiResponse where
  statusCode : Nat
  data : ResponseData
deriving Repr, DecidableEq

def BadRequestError (msg : String) : ApiResponse := ⟨400, .errData msg⟩

def InternalServerError (msg : String) : ApiResponse := ⟨500, .errData msg⟩

def JsonResponse (payload : String) : ApiResponse := ⟨200, .json payload⟩

def EmptyResponse : ApiResponse := ⟨200, .null⟩

/-- What the wrapped business handler does: return an `ApiResponse`, or raise
an unexpected runtime fault (a panic not produced by the pipeline itself). -/
inductive HandlerOutcome where
  | returns (response : ApiResponse)
  | panicked (msg : String)
deriving Repr, DecidableEq

/-- The externally visible effects of one pipeline-wrapped request: the
`(status, body)` response writes in order, whether a transaction was opened
(`createContext` succeeded), how often `Commit` was invoked, whether a commit
succeeded, and how often `Rollback` was invoked. -/
structure PipelineTrace where
  responses : List (Nat × String)
  transactionOpened : Bool
  commitAttempts : Nat
  committed : Bool
  rollbacks : Nat
deriving Repr, DecidableEq

/-- The message `prepareAndHandle` panics with when the non-200 response's
`data` is not an error value (`response.data.(error)` fails): the Go runtime's
interface-conversion panic, itself recovered by the deferred function. -/
def typeAssertionPanicMsg : String := "interface conversion: interface is not error"

/-- `response.data.(error)` of src/unnamed/part_000:313: the message of the
panic raised for a declared (non-200) failure. -/
def declaredPanicMsg : ResponseData → String
  | .errData msg => msg
  | .null => typeAssertionPanicMsg
  | .json _ => typeAssertionPanicMsg

/-- `prepareAndHandle` (src/unnamed/part_000:258-328).  Effects are made
explicit: `createContextResult` is the outcome of `createContext` (opening the
transaction), `commitResult` is the outcome `Commit()` would report
(`some msg` = failure), and `rollbackResult` the outcome of `Rollback()`
(failure is logged, non-fatal).  The deferred `recover` turns any panic —
the handler's own, the pipeline's declared-failure panic, or the
commit-failure panic — into a 500 response followed by a rollback. -/
def prepareAndHandle (key : String) (header : Option EncodedToken) (now : Int)
    (createContextResult : Except String Unit) (outcome : HandlerOutcome)
    (commitResult : Option String) (_rollbackResult : Option String) : PipelineTrace :=
  match verifyRequestHeader key header now with
  | .error _ =>
      -- no further information to the caller: a fixed generic message
      { responses := [(401, "No valid authentication token found")],
        transactionOpened := false, commitAttempts := 0, committed := false,
        rollbacks := 0 }
  | .ok _token =>
    match createContextResult with
    | .error _ =>
        { responses := [(500, "Unable to create context")],
          transactionOpened := false, commitAttempts := 0, committed := false,
          rollbacks := 0 }
    | .ok _ =>
      match outcome with
      | .panicked msg =>
          -- deferred recover: ResponseInternalError(w, …, err) then Rollback()
          { responses := [(500, msg)], transactionOpened := true,
            commitAttempts := 0, committed := false, rollbacks := 1 }
      | .returns response =>
        if response.statusCode ≠ 200 then
          -- panic(response.data.(error)), recovered by the deferred function
          { responses := [(500, declaredPanicMsg response.data)],
            transactionOpened := true, commitAttempts := 0, committed := false,
            rollbacks := 1 }
        else
          match commitResult with
          | some commitErr =>
              -- panic(err) after the failed commit, recovered as above
              { responses := [(500, commitErr)], transactionOpened := true,
                commitAttempts := 1, committed := false, rollbacks := 1 }
          | none =>
            match response.data with
            | .null =>
                -- nothing written: the HTTP layer answers an empty 200
                { responses := [], transactionOpened := true,
                  commitAttempts := 1, committed := true, rollbacks := 0 }
            | .json payload =>
                { responses := [(200, payload)], transactionOpened := true,
                  commitAttempts := 1, committed := true, rollbacks := 0 }
            | .errData msg =>
                -- a 200 response carrying an error is still serialized
                { responses := [(200, msg)], transactionOpened := true,
                  commitAttempts := 1, committed := true, rollbacks := 0 }

/-! ## Streaming (websocket) auth adapter -/

/-- The externally visible effects of one `authenticatedWebsocket` request:
response writes, whether `websocket.Init` produced a sender handle, and
whether a database transaction was opened (this path never calls
`createContext`). -/
structure WsTrace where
  responses : List (Nat × String)
  senderCreated : Bool
  transactionOpened : Bool
deriving Repr, DecidableEq

/-- `authenticatedWebsocket` (src/unnamed/part_000:224-253).  `t` is the raw
`token` query-parameter value (`""` when the parameter is missing); `decoded`
is its decoding as a token (`none` when it is not a well-formed token string),
fed into the same header-based verification path (`r.Header.Add` followed by
`auth.VerifyRequest`). -/
def authenticatedWebsocket (key : String) (t : String) (decoded : Option EncodedToken)
    (now : Int) : WsTrace :=
  if t = "" ∨ t = "null" ∨ t = "\u009e" then
    { responses :=
        [(401, "could not establish websocket connection: query parameter 'token' not set")],
      senderCreated := false, transactionOpened := false }
  else
    match verifyRequestHeader key decoded now with
    | .error _ =>
        { responses := [(401, "No valid authentication token found")],
          senderCreated := false, transactionOpened := false }
    | .ok _token =>
        { responses := [], senderCreated := true, transactionOpened := false }

/-! ## OAuth handshake orchestrator (`server/auth/auth.go`)

The process-wide maps `configs : map[string]*oauth1a.UserConfig` and
`loggers : map[string]*util.Logger` hold pointers, so an entry can be present
but `nil`; the association lists therefore store `Option`s.  A logger handle
carries no data relevant here and is modelled as `Unit`. -/

structure UserConfig where
  requestTokenKey : String
  requestTokenSecret : String
  verifier : String
  accessTokenSecret : String
deriving Repr, DecidableEq

structure AuthState where
  configs : List (String × Option UserConfig)
  loggers : List (String × Option Unit)
deriving Repr, DecidableEq

/-- `strings.TrimSpace(value) == ""`: the value consists of whitespace only. -/
def isBlank (value : String) : Bool :=
  value.data.all fun c => c.isWhitespace

/-- `util.GetParam` (src/server/util/util.go:16-23) applied to the raw form
value (`""` when the parameter is absent): fails when the trimmed value is
empty. -/
def GetParam (param value : String) : Except String String :=
  if isBlank value then .error ("parameter '" ++ param ++ "' not specified")
  else .ok value

/-- Stand-in for `fmt.Sprintf("%x", sha256.Sum256(randomBytes))`
(src/server/auth/auth.go:76): the digest primitive is external; any function
of the random bytes works for the properties proved here. -/
def configKeyOf (randomBytes : List Nat) : String :=
  String.intercalate "," (randomBytes.map toString)

inductive LoginResult where
  | response (status : Nat) (body : String)
  /-- `GetRequestToken` / `GetAuthorizeURL` failure: the handler only logs and
  returns, writing no response at all -/
  | noResponse
  | redirect (url : String)
deriving Repr, DecidableEq

/-- `OauthLogin` (src/server/auth/auth.go:65-112).  External outcomes are
parameters: `randomBytes` from `getRandomBytes(64)`, `redirectParam` the raw
`redirect` form value, `requestTokenResult` the provider's request-token
exchange (on success the filled `UserConfig`), `authorizeUrlResult` the
authorize-URL computation.  Returns the new process-wide state and the HTTP
outcome. -/
def OauthLogin (randomBytes : Except String (List Nat)) (redirectParam : String)
    (requestTokenResult : Except String UserConfig)
    (authorizeUrlResult : Except String String)
    (s : AuthState) : AuthState × LoginResult :=
  match randomBytes with
  | .error _ => (s, .response 500 "Could not get random bytes for config key")
  | .ok bytes =>
    let configKey := configKeyOf bytes
    match GetParam "redirect" redirectParam with
    | .error e => (s, .response 400 e)
    | .ok _clientRedirectUrl =>
      match requestTokenResult with
      | .error _ => (s, .noResponse)
      | .ok userConfig =>
        match authorizeUrlResult with
        | .error _ => (s, .noResponse)
        | .ok url =>
            ({ configs := insertList s.configs configKey (some userConfig),
               loggers := insertList s.loggers configKey (some ()) },
             .redirect url)

/-- The OSM user-details document (`util.Osm`); the zero value has empty
strings, which is what an ignored `xml.Unmarshal` failure leaves behind. -/
structure OsmUser where
  displayName : String
  userId : String
deriving Repr, DecidableEq

structure Osm where
  user : OsmUser
deriving Repr, DecidableEq

/-- `requestUserInformation` (src/server/auth/auth.go:198-226).
`userInfoHttp` bundles the fallible steps up to reading the response body
(`NewRequest`, `Sign`, `Do`, `ReadAll`); `parseXml` is the `xml.Unmarshal`
outcome on that body.  The unmarshalling error is discarded by the source, so
a parse failure still returns `.ok` with the zero-valued document's empty
strings. -/
def requestUserInformation (userInfoHttp : Except String String)
    (parseXml : String → Option Osm) : Except String (String × String) :=
  match userInfoHttp with
  | .error e => .error e
  | .ok body =>
    let osm := (parseXml body).getD { user := { displayName := "", userId := "" } }
    .ok (osm.user.displayName, osm.user.userId)

inductive CallbackResult where
  | response (status : Nat) (body : String)
  /-- `http.Redirect(w, r, clientRedirectUrl+"?token="+encodedTokenString, 307)` -/
  | redirect (clientRedirectUrl : String) (token : EncodedToken)
deriving Repr, DecidableEq

/-- `OauthCallback` (src/server/auth/auth.go:114-187).  `key` is the signing
key of the token codec; `configParam` / `redirectParam` are the raw form
values; `accessTokenResult` is the provider's access-token exchange;
`userInfoHttp` / `parseXml` feed `requestUserInformation`;
`validUntil = now + tokenValidityDuration`.  Note that consumption blanks the
map entries (`loggers[configKey] = nil`, `configs[configKey] = nil`) rather
than deleting them. -/
def OauthCallback (key : String) (configParam : String) (redirectParam : String)
    (accessTokenResult : Except String Unit)
    (userInfoHttp : Except String String) (parseXml : String → Option Osm)
    (now : Int) (tokenValidityDuration : Int)
    (s : AuthState) : AuthState × CallbackResult :=
  match GetParam "config" configParam with
  | .error e => (s, .response 400 e)
  | .ok configKey =>
    match lookupList s.loggers configKey with
    | none =>
        (s, .response 400 ("Logger for config key " ++ configKey ++ " not found"))
    | some none =>
        (s, .response 400 ("Logger for config key " ++ configKey ++ " not found"))
    | some (some _logger) =>
      let s1 : AuthState := { s with loggers := insertList s.loggers configKey none }
      match lookupList s1.configs configKey with
      | none => (s1, .response 400 "User config not found")
      | some none => (s1, .response 400 "User config not found")
      | some (some _userConfig) =>
        let s2 : AuthState := { s1 with configs := insertList s1.configs configKey none }
        match GetParam "redirect" redirectParam with
        | .error e => (s2, .response 400 e)
        | .ok clientRedirectUrl =>
          match accessTokenResult with
          | .error e => (s2, .response 500 e)
          | .ok _ =>
            match requestUserInformation userInfoHttp parseXml with
            | .error e => (s2, .response 500 e)
            | .ok (userName, userId) =>
                (s2, .redirect clientRedirectUrl
                       (createTokenString key userName userId
                         (now + tokenValidityDuration)))

/-! ## Helper lemmas -/

theorem except_isOk_ok {ε α : Type} (a : α) : (Except.ok a : Except ε α).isOk = true := rfl

theorem except_isOk_error {ε α : Type} (e : ε) : (Except.error e : Except ε α).isOk = false := rfl

/-! ## Claims -/

/-- C4: for every user `u`, identity `id`, expiry instant `t` and instant
`now`, verifying at time `now` a token issued via `Issue(u, id, t)`
(`createTokenString`) succeeds if and only if `now ≤ t`. -/
theorem claim_C4_verify_issue_iff (key u id : String) (t now : Int) :
    (VerifyRequest key (createTokenString key u id t) now).isOk = true ↔ now ≤ t := by
  by_cases h : now ≤ t <;>
    simp [VerifyRequest, verifyToken, createTokenString, Except.isOk, Except.toBool, h]

/-- C5: whenever `VerifyRequest` succeeds, the token it returns has its
`secret` field cleared. -/
theorem claim_C5_secret_cleared (key : String) (enc : EncodedToken) (now : Int)
    (tk : Token) (h : VerifyRequest key enc now = .ok tk) : tk.secret = "" := by
  cases hv : verifyToken key enc now with
  | error e => simp [VerifyRequest, hv] at h
  | ok t =>
      simp only [VerifyRequest, hv, Except.ok.injEq] at h
      subst h
      rfl

/-- Witness for C5 at a concrete verified token. -/
theorem claim_C5_secret_cleared_witness :
    VerifyRequest "k" (createTokenString "k" "alice" "42" 10) 5
        = .ok { user := "alice", uid := "42", validUntil := 10, secret := "" }
    ∧ (Token.mk "alice" "42" 10 "").secret = "" :=
  ⟨by rfl,
   claim_C5_secret_cleared "k" (createTokenString "k" "alice" "42" 10) 5 _ (by rfl)⟩

/-- C1: when the wrapped handler raises an unexpected runtime fault after the
transaction was opened, the pipeline intercepts it, answers `500` exactly
once, performs exactly one rollback and no commit. -/
theorem claim_C1_panic_500_single_rollback (key : String) (header : Option EncodedToken)
    (now : Int) (tok : Token) (hv : verifyRequestHeader key header now = .ok tok)
    (msg : String) (commitResult rollbackResult : Option String) :
    prepareAndHandle key header now (.ok ()) (.panicked msg) commitResult rollbackResult
      = { responses := [(500, msg)], transactionOpened := true,
          commitAttempts := 0, committed := false, rollbacks := 1 } := by
  simp [prepareAndHandle, hv]

/-- Witness for C1 at a concrete verified request and panic. -/
theorem claim_C1_panic_500_single_rollback_witness :
    verifyRequestHeader "k" (some (createTokenString "k" "alice" "42" 10)) 5
        = .ok { user := "alice", uid := "42", validUntil := 10, secret := "" }
    ∧ prepareAndHandle "k" (some (createTokenString "k" "alice" "42" 10)) 5 (.ok ())
          (.panicked "boom") none none
        = { responses := [(500, "boom")], transactionOpened := true,
            commitAttempts := 0, committed := false, rollbacks := 1 } :=
  ⟨by rfl,
   claim_C1_panic_500_single_rollback "k" (some (createTokenString "k" "alice" "42" 10)) 5
     _ (by rfl) "boom" none none⟩

/-- C3: whatever the reason a token fails verification, the pipeline answers
`401` with the one fixed generic message and opens no transaction. -/
theorem claim_C3_verify_fail_401_generic (key : String) (header : Option EncodedToken)
    (now : Int) (e : AuthError) (hv : verifyRequestHeader key header now = .error e)
    (ctxResult : Except String Unit) (outcome : HandlerOutcome)
    (commitResult rollbackResult : Option String) :
    prepareAndHandle key header now ctxResult outcome commitResult rollbackResult
      = { responses := [(401, "No valid authentication token found")],
          transactionOpened := false, commitAttempts := 0, committed := false,
          rollbacks := 0 } := by
  simp [prepareAndHandle, hv]

/-- Witness for C3 at a concrete request with a missing header. -/
theorem claim_C3_verify_fail_401_generic_witness :
    verifyRequestHeader "k" none 5 = .error .malformed
    ∧ prepareAndHandle "k" none 5 (.ok ()) (.panicked "x") none none
        = { responses := [(401, "No valid authentication token found")],
            transactionOpened := false, commitAttempts := 0, committed := false,
            rollbacks := 0 } :=
  ⟨by rfl,
   claim_C3_verify_fail_401_generic "k" none 5 .malformed (by rfl) (.ok ())
     (.panicked "x") none none⟩

/-- Counterexample to C2 as stated: a handler that declares a `400` failure
(`BadRequestError "invalid id"`) is answered with status `500`, not the
declared `400`, and the body echoes the internal error detail. -/
theorem claim_C2_counterexample :
    (prepareAndHandle "k" (some (createTokenString "k" "alice" "42" 10)) 5 (.ok ())
        (.returns (BadRequestError "invalid id")) none none).responses
      = [(500, "invalid id")]
    ∧ (500 : Nat) ≠ 400 := by
  exact ⟨by rfl, by decide⟩

/-- C2 amended: when the handler returns a declared failure (non-`200`
status), the pipeline rolls back the transaction and answers `500` regardless
of the declared status, with the declared error's message as the body. -/
theorem claim_C2_declared_failure_500_rollback (key : String)
    (header : Option EncodedToken) (now : Int) (tok : Token)
    (hv : verifyRequestHeader key header now = .ok tok)
    (response : ApiResponse) (hs : response.statusCode ≠ 200)
    (commitResult rollbackResult : Option String) :
    prepareAndHandle key header now (.ok ()) (.returns response) commitResult rollbackResult
      = { responses := [(500, declaredPanicMsg response.data)],
          transactionOpened := true, commitAttempts := 0, committed := false,
          rollbacks := 1 } := by
  simp [prepareAndHandle, hv, hs]

/-- Witness for the amended C2 at a concrete declared `400` failure. -/
theorem claim_C2_declared_failure_500_rollback_witness :
    verifyRequestHeader "k" (some (createTokenString "k" "alice" "42" 10)) 5
        = .ok { user := "alice", uid := "42", validUntil := 10, secret := "" }
    ∧ (BadRequestError "invalid id").statusCode ≠ 200
    ∧ prepareAndHandle "k" (some (createTokenString "k" "alice" "42" 10)) 5 (.ok ())
          (.returns (BadRequestError "invalid id")) none none
        = { responses := [(500, "invalid id")], transactionOpened := true,
            commitAttempts := 0, committed := false, rollbacks := 1 } :=
  ⟨by rfl, by decide,
   claim_C2_declared_failure_500_rollback "k" (some (createTokenString "k" "alice" "42" 10)) 5
     _ (by rfl) (BadRequestError "invalid id") (by decide) none none⟩

/-- C8: a streaming-connection request whose `token` query parameter is
missing (`""`), empty, or a placeholder sentinel (`"null"`, `"\u009e"`) is
answered `401` with no sender handle created and no transaction opened. -/
theorem claim_C8_sentinel_401_no_sender (key : String) (t : String)
    (decoded : Option EncodedToken) (now : Int)
    (h : t = "" ∨ t = "null" ∨ t = "\u009e") :
    authenticatedWebsocket key t decoded now
      = { responses :=
            [(401, "could not establish websocket connection: query parameter 'token' not set")],
          senderCreated := false, transactionOpened := false } := by
  unfold authenticatedWebsocket
  rw [if_pos h]

/-- Witness for C8 at the literal `?token=null` request. -/
theorem claim_C8_sentinel_401_no_sender_witness :
    ("null" = "" ∨ "null" = "null" ∨ "null" = "\u009e")
    ∧ authenticatedWebsocket "k" "null" none 5
        = { responses :=
              [(401, "could not establish websocket connection: query parameter 'token' not set")],
            senderCreated := false, transactionOpened := false } :=
  ⟨Or.inr (Or.inl rfl),
   claim_C8_sentinel_401_no_sender "k" "null" none 5 (Or.inr (Or.inl rfl))⟩

/-- C9: when the provider's user-details body does not parse as the expected
XML document, the callback still succeeds: it redirects with a freshly issued
token whose user display name and uid are both empty strings. -/
theorem claim_C9_xml_failure_ignored (key configParam redirectParam body clientRedirectUrl
      cKey : String) (uc : UserConfig) (parseXml : String → Option Osm)
    (now dur : Int) (s : AuthState)
    (hc : GetParam "config" configParam = .ok cKey)
    (hl : lookupList s.loggers cKey = some (some ()))
    (hu : lookupList s.configs cKey = some (some uc))
    (hr : GetParam "redirect" redirectParam = .ok clientRedirectUrl)
    (hp : parseXml body = none) :
    (OauthCallback key configParam redirectParam (.ok ()) (.ok body) parseXml now dur s).2
      = .redirect clientRedirectUrl (createTokenString key "" "" (now + dur))
    ∧ (createTokenString key "" "" (now + dur)).user = ""
    ∧ (createTokenString key "" "" (now + dur)).uid = "" := by
  refine ⟨?_, rfl, rfl⟩
  simp [OauthCallback, hc, hl, hu, hr, requestUserInformation, hp]

/-- Witness for C9 at a concrete unparseable provider response. -/
theorem claim_C9_xml_failure_ignored_witness :
    GetParam "config" "cfg" = .ok "cfg"
    ∧ lookupList ([("cfg", some ())] : List (String × Option Unit)) "cfg" = some (some ())
    ∧ lookupList ([("cfg", some (UserConfig.mk "rk" "rs" "v" "as"))]) "cfg"
        = some (some (UserConfig.mk "rk" "rs" "v" "as"))
    ∧ GetParam "redirect" "https://client/land" = .ok "https://client/land"
    ∧ (OauthCallback "k" "cfg" "https://client/land" (.ok ()) (.ok "not-xml")
          (fun _ => none) 100 3600
          { configs := [("cfg", some (UserConfig.mk "rk" "rs" "v" "as"))],
            loggers := [("cfg", some ())] }).2
        = .redirect "https://client/land" (createTokenString "k" "" "" 3700) :=
  ⟨by rfl, by rfl, by rfl, by rfl,
   (claim_C9_xml_failure_ignored "k" "cfg" "https://client/land" "not-xml"
      "https://client/land" "cfg" (UserConfig.mk "rk" "rs" "v" "as") (fun _ => none)
      100 3600
      { configs := [("cfg", some (UserConfig.mk "rk" "rs" "v" "as"))],
        loggers := [("cfg", some ())] }
      (by rfl) (by rfl) (by rfl) (by rfl) (by rfl)).1⟩

/-- C10: when any step of `OauthLogin` fails — random-byte generation, the
`redirect` parameter, the provider's request-token exchange, or the
authorize-URL computation — the process-wide `configs` / `loggers` maps are
left unchanged. -/
theorem claim_C10_login_failure_leaves_maps (randomBytes : Except String (List Nat))
    (redirectParam : String) (requestTokenResult : Except String UserConfig)
    (authorizeUrlResult : Except String String) (s : AuthState)
    (h : randomBytes.isOk = false ∨ (GetParam "redirect" redirectParam).isOk = false
        ∨ requestTokenResult.isOk = false ∨ authorizeUrlResult.isOk = false) :
    (OauthLogin randomBytes redirectParam requestTokenResult authorizeUrlResult s).1 = s := by
  cases randomBytes with
  | error e => rfl
  | ok bytes =>
      cases hg : GetParam "redirect" redirectParam with
      | error e => simp [OauthLogin, hg]
      | ok u =>
          cases requestTokenResult with
          | error e => simp [OauthLogin, hg]
          | ok uc =>
              cases authorizeUrlResult with
              | error e => simp [OauthLogin, hg]
              | ok url =>
                  rw [hg] at h
                  simp [except_isOk_ok] at h

/-- Witness for C10 at a concrete failed request-token exchange. -/
theorem claim_C10_login_failure_leaves_maps_witness :
    ((Except.error "provider down" : Except String UserConfig).isOk = false)
    ∧ (OauthLogin (.ok [1, 2, 3]) "https://client/land"
          (.error "provider down") (.ok "https://osm/authorize")
          { configs := [], loggers := [] }).1
        = { configs := [], loggers := [] } :=
  ⟨by rfl,
   claim_C10_login_failure_leaves_maps (.ok [1, 2, 3]) "https://client/land"
     (.error "provider down") (.ok "https://osm/authorize")
     { configs := [], loggers := [] }
     (Or.inr (Or.inr (Or.inl (by rfl))))⟩

/-- `util.GetParam` succeeds on a non-blank value and returns it unchanged. -/
theorem GetParam_ok (param value : String) (h : isBlank value = false) :
    GetParam param value = .ok value := by
  simp [GetParam, h]

/-- A callback that finds live pending state under `cKey` blanks the
`loggers` entry: afterwards `loggers[cKey]` is present but `nil`, whatever
happens in the later steps. -/
theorem OauthCallback_consumes_loggers (key cKey redirectParam : String)
    (atr : Except String Unit) (uih : Except String String)
    (parseXml : String → Option Osm) (now dur : Int) (s : AuthState) (l : Unit)
    (hk : isBlank cKey = false) (hl : lookupList s.loggers cKey = some (some l)) :
    ((OauthCallback key cKey redirectParam atr uih parseXml now dur s).1).loggers
      = insertList s.loggers cKey none := by
  simp only [OauthCallback, GetParam_ok "config" cKey hk, hl]
  cases hcf : lookupList s.configs cKey with
  | none => rfl
  | some o =>
    cases o with
    | none => rfl
    | some uc =>
      cases hgr : GetParam "redirect" redirectParam with
      | error e => rfl
      | ok u =>
        cases atr with
        | error e => rfl
        | ok x =>
          cases hui : requestUserInformation uih parseXml with
          | error e => rfl
          | ok p =>
            cases p with
            | mk a b => rfl

/-- A callback whose `cKey` entry has been blanked (`loggers[cKey] = nil`)
fails with the logger-not-found `400` and leaves the state unchanged. -/
theorem OauthCallback_consumed_fails (key cKey redirectParam : String)
    (atr : Except String Unit) (uih : Except String String)
    (parseXml : String → Option Osm) (now dur : Int) (s : AuthState)
    (hk : isBlank cKey = false) (h : lookupList s.loggers cKey = some none) :
    OauthCallback key cKey redirectParam atr uih parseXml now dur s
      = (s, .response 400 ("Logger for config key " ++ cKey ++ " not found")) := by
  simp [OauthCallback, GetParam, hk, h]

/-- A callback with a different config key never resurrects a blanked
`loggers[cKey]` entry. -/
theorem OauthCallback_preserves_other_loggers (key cfg2 redirectParam : String)
    (atr : Except String Unit) (uih : Except String String)
    (parseXml : String → Option Osm) (now dur : Int) (s : AuthState) (cKey : String)
    (hne : cfg2 ≠ cKey) (h : lookupList s.loggers cKey = some none) :
    lookupList ((OauthCallback key cfg2 redirectParam atr uih parseXml now dur s).1).loggers cKey
      = some none := by
  by_cases hb : isBlank cfg2 = true
  · simp [OauthCallback, GetParam, hb, h]
  · rw [Bool.not_eq_true] at hb
    simp only [OauthCallback, GetParam_ok "config" cfg2 hb]
    cases hlg : lookupList s.loggers cfg2 with
    | none => simpa using h
    | some o =>
      cases o with
      | none => simpa using h
      | some l =>
        have hpres : lookupList (insertList s.loggers cfg2 none) cKey = some none := by
          rw [lookupList_insertList_ne s.loggers cKey cfg2 none hne]
          exact h
        cases hcf : lookupList s.configs cfg2 with
        | none => simpa using hpres
        | some o2 =>
          cases o2 with
          | none => simpa using hpres
          | some uc =>
            cases hgr : GetParam "redirect" redirectParam with
            | error e => simpa using hpres
            | ok u =>
              cases atr with
              | error e => simpa using hpres
              | ok x =>
                cases hui : requestUserInformation uih parseXml with
                | error e => simpa using hpres
                | ok p =>
                  cases p with
                  | mk a b => simpa using hpres

/-- C6: a pending handshake key is consumable at most once.  First conjunct:
a callback that looked the state up under `cKey` leaves `loggers[cKey]`
blanked.  Second conjunct: every callback against a blanked `cKey` fails with
the `400` logger-not-found response (the unknown-or-expired-handshake error)
and changes nothing.  Third conjunct: callbacks with other keys preserve the
blanking — so every call after the first one with the same key fails instead
of proceeding. -/
theorem claim_C6_config_key_single_use (s : AuthState) (cKey : String)
    (hk : isBlank cKey = false)
    (hl : lookupList s.loggers cKey = some (some ())) :
    (∀ (key redirectParam : String) (atr : Except String Unit)
        (uih : Except String String) (parseXml : String → Option Osm) (now dur : Int),
        lookupList ((OauthCallback key cKey redirectParam atr uih parseXml now dur s).1).loggers
            cKey
          = some none)
    ∧ (∀ s2 : AuthState, lookupList s2.loggers cKey = some none →
        ∀ (key redirectParam : String) (atr : Except String Unit)
          (uih : Except String String) (parseXml : String → Option Osm) (now dur : Int),
          OauthCallback key cKey redirectParam atr uih parseXml now dur s2
            = (s2, .response 400 ("Logger for config key " ++ cKey ++ " not found")))
    ∧ (∀ (s2 : AuthState) (cfg2 : String), cfg2 ≠ cKey →
        lookupList s2.loggers cKey = some none →
        ∀ (key redirectParam : String) (atr : Except String Unit)
          (uih : Except String String) (parseXml : String → Option Osm) (now dur : Int),
          lookupList ((OauthCallback key cfg2 redirectParam atr uih parseXml now dur s2).1).loggers
              cKey
            = some none) := by
  refine ⟨?_, ?_, ?_⟩
  · intro key redirectParam atr uih parseXml now dur
    rw [OauthCallback_consumes_loggers key cKey redirectParam atr uih parseXml now dur s () hk hl]
    exact lookupList_insertList_self s.loggers cKey none
  · intro s2 h2 key redirectParam atr uih parseXml now dur
    exact OauthCallback_consumed_fails key cKey redirectParam atr uih parseXml now dur s2 hk h2
  · intro s2 cfg2 hne h2 key redirectParam atr uih parseXml now dur
    exact OauthCallback_preserves_other_loggers key cfg2 redirectParam atr uih parseXml now dur
      s2 cKey hne h2

/-- Witness for C6: a concrete consumed key is marked blank, and a second
call with it fails with the `400` response, leaving the state unchanged. -/
theorem claim_C6_config_key_single_use_witness :
    lookupList ((OauthCallback "k" "cfg" "r" (.ok ()) (.ok "b") (fun _ => none) 0 1
        { configs := [("cfg", some (UserConfig.mk "rk" "rs" "v" "as"))],
          loggers := [("cfg", some ())] }).1).loggers "cfg" = some none
    ∧ OauthCallback "k" "cfg" "r" (.ok ()) (.ok "b") (fun _ => none) 0 1
        { configs := [("cfg", none)], loggers := [("cfg", none)] }
        = ({ configs := [("cfg", none)], loggers := [("cfg", none)] },
           .response 400 "Logger for config key cfg not found") := by
  have h := claim_C6_config_key_single_use
    { configs := [("cfg", some (UserConfig.mk "rk" "rs" "v" "as"))],
      loggers := [("cfg", some ())] } "cfg" (by rfl) (by rfl)
  exact ⟨h.1 "k" "r" (.ok ()) (.ok "b") (fun _ => none) 0 1,
         h.2.1 { configs := [("cfg", none)], loggers := [("cfg", none)] } (by rfl)
           "k" "r" (.ok ()) (.ok "b") (fun _ => none) 0 1⟩

/-- C7 (what the code actually does): a completed callback blanks the map
entries to `nil` instead of deleting them — afterwards the key is still
present in both process-wide maps, mapped to a blank value, contradicting the
required removal. -/
theorem claim_C7_entry_still_present :
    ((OauthCallback "k" "cfg" "https://client/land" (.ok ()) (.ok "b") (fun _ => none) 0 1
        { configs := [("cfg", some (UserConfig.mk "rk" "rs" "v" "as"))],
          loggers := [("cfg", some ())] }).1)
      = { configs := [("cfg", none)], loggers := [("cfg", none)] }
    ∧ lookupList ({ configs := [("cfg", none)], loggers := [("cfg", none)] }
          : AuthState).loggers "cfg" = some none
    ∧ lookupList ({ configs := [("cfg", none)], loggers := [("cfg", none)] }
          : AuthState).configs "cfg" = some none := by
  exact ⟨by decide, rfl, rfl⟩

end STM
